import Mathlib

/-!
Shallow embedding of the per-region time-series forecasting and reporting
pipeline of `src/app.py` (sav-viewer2).

Values of the selected numeric variable are modelled as rationals, years as
integers.  The ARIMA fit is an external numerical library call
(`statsmodels`); it is modelled as an oracle function returning either the
list of point forecasts or `none` when it raises.  Streamlit display calls
(`st.warning`, `st.error`, `st.markdown`, `st.write`) are modelled as the
diagnostic / report values the code hands to them.
-/

namespace SavViewer

/-- A row of the uploaded dataset, restricted to the columns the per-region
pipeline reads: the `NUTS Code` column, the `Year` column, and the selected
numeric variable's column (app.py lines 36-59). -/
structure Row where
  nutsCode : String
  year : Int
  value : Rat
deriving Repr, DecidableEq, Inhabited

/-- One (Year, Value) point of `time_series_data` (app.py line 58). -/
structure TimePoint where
  year : Int
  value : Rat
deriving Repr, DecidableEq, Inhabited

/-- The `Type` column of the combined data frame (app.py lines 75, 83). -/
inductive SeriesType where
  | Historical
  | Forecast
deriving Repr, DecidableEq, Inhabited, BEq

/-- One row of `combined_data`: year, value, and the `Type` tag. -/
structure TaggedPoint where
  year : Int
  value : Rat
  ptype : SeriesType
deriving Repr, DecidableEq, Inhabited

/-- Comparison used by `sort_values('Year')`: ascending year. -/
def yearLE (a b : TimePoint) : Prop := a.year ≤ b.year

instance : DecidableRel yearLE := fun a b => Int.decLe a.year b.year

instance : IsTotal TimePoint yearLE := ⟨fun a b => Int.le_total a.year b.year⟩

instance : IsTrans TimePoint yearLE := ⟨fun _ _ _ h₁ h₂ => le_trans h₁ h₂⟩

/-- Embedding of app.py lines 57-59:
`region_df = filtered_data[filtered_data['NUTS Code'] == region_code]`,
`time_series_data = region_df[['Year', selected_variable]].sort_values('Year')`
(then renamed to `Value`).  Rows matching the region code are projected to
(Year, Value) and sorted ascending by year. -/
def time_series_data (df : List Row) (region_code : String) : List TimePoint :=
  List.insertionSort yearLE
    ((df.filter (fun r => r.nutsCode == region_code)).map
      (fun r => TimePoint.mk r.year r.value))

/-- `series.max()` on an integer column: maximum of a list, 0 on empty
(the code only evaluates it on nonempty columns). -/
def columnMax : List Int → Int
  | [] => 0
  | y :: ys => ys.foldl max y

/-- `series.min()` on an integer column. -/
def columnMin : List Int → Int
  | [] => 0
  | y :: ys => ys.foldl min y

/-- `data['Year'].max()` (app.py line 70). -/
def latestYearOf (data : List TimePoint) : Int :=
  columnMax (data.map TimePoint.year)

/-- Diagnostics the pipeline reports to the user: `st.warning` at line 63
(insufficient data), `st.error` at line 79 (ARIMA fitting/forecasting
raised), or none. -/
inductive Diagnostic where
  | ok
  | insufficientData
  | fitError
deriving Repr, DecidableEq

/-- Model of the external numerical library call
`ARIMA(values, order=(2,1,2)).fit().forecast(steps=n)` (app.py lines 66-69):
from the value sequence and the step count it either produces the point
forecasts or raises a numerical error (`none`). -/
def FitOracle : Type := List Rat → Nat → Option (List Rat)

/-- Embedding of `generate_arima_forecast` (app.py lines 61-80).
With fewer than 2 points: warn and return an empty frame.  Otherwise fit and
forecast inside `try`; on success build the forecast frame with years
`latest_year + 1 .. latest_year + forecast_steps` and `Type = 'Forecast'`;
any exception (including a forecast of the wrong length, which would make
the `pd.DataFrame` constructor raise) is caught, reported via `st.error`,
and an empty frame is returned. -/
def generate_arima_forecast (fit : FitOracle) (data : List TimePoint)
    (forecast_steps : Nat) : Diagnostic × List TaggedPoint :=
  if data.length < 2 then
    (Diagnostic.insufficientData, [])
  else
    match fit (data.map TimePoint.value) forecast_steps with
    | some forecast_result =>
        if forecast_result.length = forecast_steps then
          (Diagnostic.ok,
            (List.range forecast_steps).zipWith
              (fun (i : Nat) v =>
                TaggedPoint.mk (latestYearOf data + 1 + Int.ofNat i) v
                  SeriesType.Forecast)
              forecast_result)
        else (Diagnostic.fitError, [])
    | none => (Diagnostic.fitError, [])

/-- App.py line 83: tag the historical series with `Type = 'Historical'`. -/
def tagHistorical (p : TimePoint) : TaggedPoint :=
  TaggedPoint.mk p.year p.value SeriesType.Historical

/-- Embedding of app.py line 84:
`combined_data = pd.concat([time_series_data, forecast_data])`. -/
def combined_data (ts : List TimePoint) (forecast_data : List TaggedPoint) :
    List TaggedPoint :=
  ts.map tagHistorical ++ forecast_data

/-- App.py line 88: `historical = combined_data[combined_data['Type'] == 'Historical']`. -/
def historicalOf (combined : List TaggedPoint) : List TaggedPoint :=
  combined.filter (fun p => p.ptype == SeriesType.Historical)

/-- App.py line 89: `forecast = combined_data[combined_data['Type'] == 'Forecast']`. -/
def forecastOf (combined : List TaggedPoint) : List TaggedPoint :=
  combined.filter (fun p => p.ptype == SeriesType.Forecast)

/-- The historical-trend values computed at app.py lines 115-123. -/
structure HistSummary where
  first_value : Rat
  last_value : Rat
  absolute_change : Rat
  percent_change : Rat
  earliest_year : Int
  latest_year : Int
  avg_annual_change : Rat
  trend_direction : String
deriving Repr, DecidableEq

/-- Embedding of app.py lines 115-123: the historical-trend quantities,
computed whenever the historical series has at least 2 points. -/
def computeHistSummary (historical : List TaggedPoint) : HistSummary :=
  let first_value := (historical.head?.getD default).value
  let last_value := (historical.getLast?.getD default).value
  let absolute_change := last_value - first_value
  let percent_change :=
    if first_value ≠ 0 then absolute_change / |first_value| * 100 else 0
  let earliest_year := columnMin (historical.map TaggedPoint.year)
  let latest_year := columnMax (historical.map TaggedPoint.year)
  let year_span := latest_year - earliest_year
  let avg_annual_change :=
    if year_span > 0 then absolute_change / (year_span : Rat) else 0
  let trend_direction :=
    if absolute_change > 0 then "increasing"
    else if absolute_change < 0 then "decreasing"
    else "stable"
  HistSummary.mk first_value last_value absolute_change percent_change
    earliest_year latest_year avg_annual_change trend_direction

/-- The forecast-narrative values computed at app.py lines 125-133, including
the forecast header years `latest_year + 1 .. latest_year + 8` (line 131)
and the average expected annual change `forecasted_change / 8` (line 133). -/
structure ForecastNarrative where
  last_forecast_value : Rat
  forecasted_change : Rat
  forecasted_percent : Rat
  avg_expected_annual_change : Rat
  forecast_start_year : Int
  forecast_end_year : Int
deriving Repr, DecidableEq

/-- Embedding of app.py lines 125-133 (inside `if not forecast.empty:`). -/
def computeForecastNarrative (historical fore : List TaggedPoint) :
    ForecastNarrative :=
  let last_value := (historical.getLast?.getD default).value
  let latest_year := columnMax (historical.map TaggedPoint.year)
  let last_forecast_value := (fore.getLast?.getD default).value
  let forecasted_change := last_forecast_value - last_value
  let forecasted_percent :=
    if last_value ≠ 0 then forecasted_change / |last_value| * 100 else 0
  ForecastNarrative.mk last_forecast_value forecasted_change forecasted_percent
    (forecasted_change / 8) (latest_year + 1) (latest_year + 8)

/-- Embedding of the Data Analysis Report block (app.py lines 114-135): what
the block actually renders.  The trend variables are computed whenever
`len(historical) >= 2` (line 114), but every `st.markdown` / `st.write` of
the report — the historical summary sentences included — sits inside
`if not forecast.empty:` (line 124), so nothing is rendered when the
forecast frame is empty. -/
def dataAnalysisReport (historical fore : List TaggedPoint) :
    Option (HistSummary × ForecastNarrative) :=
  if 2 ≤ historical.length then
    if fore.isEmpty then none
    else some (computeHistSummary historical, computeForecastNarrative historical fore)
  else none

/-- The whole per-region pipeline (app.py lines 56-135) for one region code:
extraction, forecast with the program's fixed horizon 8 (`forecast_steps=8`,
line 61 default used at line 82), combination, split by `Type`, and report. -/
def processRegion (fit : FitOracle) (df : List Row) (region_code : String) :
    Diagnostic × List TaggedPoint × Option (HistSummary × ForecastNarrative) :=
  let ts := time_series_data df region_code
  let p := generate_arima_forecast fit ts 8
  let combined := combined_data ts p.2
  (p.1, combined, dataAnalysisReport (historicalOf combined) (forecastOf combined))

/-- Helper: a member of `zipWith f as bs` is `f a b` for some members `a`, `b`. -/
theorem mem_zipWith_imp {α β γ : Type} {f : α → β → γ} :
    ∀ {as : List α} {bs : List β} {c : γ}, c ∈ List.zipWith f as bs →
      ∃ a b, a ∈ as ∧ b ∈ bs ∧ c = f a b
  | [], _, _, h => absurd h (by simp)
  | _ :: _, [], _, h => absurd h (by simp)
  | a :: as, b :: bs, c, h => by
      rcases List.mem_cons.mp h with h | h
      · exact ⟨a, b, List.mem_cons_self a as, List.mem_cons_self b bs, h⟩
      · obtain ⟨a', b', ha, hb, hc⟩ := mem_zipWith_imp h
        exact ⟨a', b', List.mem_cons_of_mem _ ha, List.mem_cons_of_mem _ hb, hc⟩

/-- Helper: every point `generate_arima_forecast` returns carries the
`Forecast` tag, whichever branch is taken. -/
theorem generate_ptype_forecast (fit : FitOracle) (data : List TimePoint)
    (steps : Nat) :
    ∀ p ∈ (generate_arima_forecast fit data steps).2,
      p.ptype = SeriesType.Forecast := by
  intro p hp
  unfold generate_arima_forecast at hp
  split at hp
  · simp at hp
  · rcases hfit : fit (data.map TimePoint.value) steps with _ | vs <;>
      rw [hfit] at hp
    · simp at hp
    · simp only at hp
      split at hp
      · obtain ⟨i, v, _, _, hc⟩ := mem_zipWith_imp hp
        rw [hc]
      · simp at hp

/-- C1: for every series with at least 2 points and any horizon `h > 0`, when
the ARIMA(2,1,2) fit succeeds, the forecast has exactly `h` points whose
years are the contiguous integers `last_observed_year + 1 ..
last_observed_year + h` (whatever gaps the historical years have), each
carrying the `Forecast` tag. -/
theorem C1_forecast_shape (fit : FitOracle) (data : List TimePoint) (h : Nat)
    (hdata : 2 ≤ data.length) (_hh : 0 < h)
    (hok : (generate_arima_forecast fit data h).1 = Diagnostic.ok) :
    (generate_arima_forecast fit data h).2.length = h ∧
    ∀ i (hi : i < (generate_arima_forecast fit data h).2.length),
      ((generate_arima_forecast fit data h).2.get ⟨i, hi⟩).year =
        latestYearOf data + 1 + (i : Int) ∧
      ((generate_arima_forecast fit data h).2.get ⟨i, hi⟩).ptype =
        SeriesType.Forecast := by
  have hnlt : ¬ data.length < 2 := by omega
  rcases hfit : fit (data.map TimePoint.value) h with _ | vs
  · simp [generate_arima_forecast, if_neg hnlt, hfit] at hok
  · by_cases hl : vs.length = h
    · have hgen : (generate_arima_forecast fit data h).2 =
          (List.range h).zipWith
            (fun (i : Nat) v =>
              TaggedPoint.mk (latestYearOf data + 1 + Int.ofNat i) v
                SeriesType.Forecast) vs := by
        simp only [generate_arima_forecast, if_neg hnlt, hfit, if_pos hl]
      simp only [hgen]
      constructor
      · simp [List.length_zipWith, hl]
      · intro i hi
        simp only [List.length_zipWith, List.length_range, hl, min_self] at hi
        simp [List.get_eq_getElem, hgen, List.getElem_zipWith,
          List.getElem_range]
    · simp [generate_arima_forecast, if_neg hnlt, hfit, if_neg hl] at hok

/-- C1 witness: a gapped two-point series, horizon 3, an oracle returning
three values; the forecast is three points for years 2004, 2005, 2006. -/
theorem C1_forecast_shape_witness :
    (generate_arima_forecast (fun _ n => some (List.replicate n 5))
        [TimePoint.mk 2000 1, TimePoint.mk 2003 2] 3).2.length = 3 ∧
    ∀ i (hi : i < (generate_arima_forecast (fun _ n => some (List.replicate n 5))
        [TimePoint.mk 2000 1, TimePoint.mk 2003 2] 3).2.length),
      ((generate_arima_forecast (fun _ n => some (List.replicate n 5))
        [TimePoint.mk 2000 1, TimePoint.mk 2003 2] 3).2.get ⟨i, hi⟩).year =
        latestYearOf [TimePoint.mk 2000 1, TimePoint.mk 2003 2] + 1 + (i : Int) ∧
      ((generate_arima_forecast (fun _ n => some (List.replicate n 5))
        [TimePoint.mk 2000 1, TimePoint.mk 2003 2] 3).2.get ⟨i, hi⟩).ptype =
        SeriesType.Forecast :=
  C1_forecast_shape (fun _ n => some (List.replicate n 5))
    [TimePoint.mk 2000 1, TimePoint.mk 2003 2] 3 (by decide) (by decide)
    (by decide)

/-- C2: with fewer than 2 points and any positive horizon, the forecast
routine reports insufficient data and returns the empty series; the fit
oracle is never consulted (the result is the same for every oracle). -/
theorem C2_insufficient_data (fit fit' : FitOracle) (data : List TimePoint)
    (h : Nat) (hlen : data.length < 2) (_hh : 0 < h) :
    generate_arima_forecast fit data h = (Diagnostic.insufficientData, []) ∧
    generate_arima_forecast fit data h = generate_arima_forecast fit' data h := by
  unfold generate_arima_forecast
  rw [if_pos hlen, if_pos hlen]
  exact ⟨rfl, rfl⟩

/-- C2 witness: a single-point series with horizon 1 and two different
oracles. -/
theorem C2_insufficient_data_witness :
    generate_arima_forecast (fun _ _ => none) [TimePoint.mk 2020 50] 1 =
      (Diagnostic.insufficientData, []) :=
  (C2_insufficient_data (fun _ _ => none) (fun _ n => some (List.replicate n 0))
    [TimePoint.mk 2020 50] 1 (by decide) (by decide)).1

/-- C7: with at least 2 points, when the fit raises a numerical error the
error is caught, the fit-error diagnostic is reported, the forecast series
is empty, and the rest of the pipeline proceeds: the combined series is
exactly the tagged historical series. -/
theorem C7_fit_failure_degrades (fit : FitOracle) (data : List TimePoint)
    (h : Nat) (hdata : 2 ≤ data.length)
    (hfail : fit (data.map TimePoint.value) h = none) :
    generate_arima_forecast fit data h = (Diagnostic.fitError, []) ∧
    combined_data data (generate_arima_forecast fit data h).2 =
      data.map tagHistorical := by
  have hgen : generate_arima_forecast fit data h = (Diagnostic.fitError, []) := by
    unfold generate_arima_forecast
    rw [if_neg (by omega), hfail]
  exact ⟨hgen, by rw [hgen]; simp [combined_data]⟩

/-- C7 witness: a two-point series with an always-raising oracle. -/
theorem C7_fit_failure_degrades_witness :
    generate_arima_forecast (fun _ _ => none)
        [TimePoint.mk 2020 1, TimePoint.mk 2021 2] 8 =
      (Diagnostic.fitError, []) ∧
    combined_data [TimePoint.mk 2020 1, TimePoint.mk 2021 2]
        (generate_arima_forecast (fun _ _ => none)
          [TimePoint.mk 2020 1, TimePoint.mk 2021 2] 8).2 =
      [TimePoint.mk 2020 1, TimePoint.mk 2021 2].map tagHistorical :=
  C7_fit_failure_degrades (fun _ _ => none)
    [TimePoint.mk 2020 1, TimePoint.mk 2021 2] 8 (by decide) rfl

/-- C3: the claim says the historical trend summary is produced even when
the forecast series is empty.  In the code every rendering statement of the
Data Analysis Report, the historical-summary sentences included, sits
inside `if not forecast.empty:` (app.py line 124), so on a 2-point
historical series with an empty forecast nothing of the summary is
rendered — even though the summary values are computed at lines 115-123
(here: absolute change 10, an increasing trend). -/
theorem C3_summary_suppressed_without_forecast :
    dataAnalysisReport
        [TaggedPoint.mk 2020 50 SeriesType.Historical,
         TaggedPoint.mk 2021 60 SeriesType.Historical] [] = none ∧
    (computeHistSummary
        [TaggedPoint.mk 2020 50 SeriesType.Historical,
         TaggedPoint.mk 2021 60 SeriesType.Historical]).absolute_change = 10 ∧
    (computeHistSummary
        [TaggedPoint.mk 2020 50 SeriesType.Historical,
         TaggedPoint.mk 2021 60 SeriesType.Historical]).trend_direction =
      "increasing" := by
  refine ⟨rfl, ?_, ?_⟩ <;> norm_num [computeHistSummary]

/-- C4: for a historical series with at least 2 points, `percent_change` is
exactly 0 when the first historical value is 0 (the guard takes the `else`
branch, no division happens), and otherwise equals
`absolute_change / |first_value| * 100`. -/
theorem C4_percent_change_guard (historical : List TaggedPoint)
    (_hlen : 2 ≤ historical.length) :
    ((historical.head?.getD default).value = 0 →
      (computeHistSummary historical).percent_change = 0) ∧
    ((historical.head?.getD default).value ≠ 0 →
      (computeHistSummary historical).percent_change =
        (computeHistSummary historical).absolute_change /
          |(historical.head?.getD default).value| * 100) := by
  constructor
  · intro h0
    simp [computeHistSummary, h0]
  · intro h0
    simp [computeHistSummary, h0]

/-- C4 witness: scenario C of the spec, series [(2018, 0), (2019, 5)]:
percent change is exactly 0. -/
theorem C4_percent_change_guard_witness :
    (computeHistSummary
        [TaggedPoint.mk 2018 0 SeriesType.Historical,
         TaggedPoint.mk 2019 5 SeriesType.Historical]).percent_change = 0 :=
  (C4_percent_change_guard
      [TaggedPoint.mk 2018 0 SeriesType.Historical,
       TaggedPoint.mk 2019 5 SeriesType.Historical]
    (by decide)).1 (by norm_num)

/-- C5: for a historical series with at least 2 points, `absolute_change` is
last value minus first value; `trend_direction` is "increasing" when the
change is positive, "decreasing" when negative, "stable" when zero; and
`avg_annual_change` is the change divided by the year span when the span is
positive, else 0. -/
theorem C5_change_trend_avg (historical : List TaggedPoint)
    (_hlen : 2 ≤ historical.length) :
    (computeHistSummary historical).absolute_change =
      (historical.getLast?.getD default).value -
        (historical.head?.getD default).value ∧
    (0 < (computeHistSummary historical).absolute_change →
      (computeHistSummary historical).trend_direction = "increasing") ∧
    ((computeHistSummary historical).absolute_change < 0 →
      (computeHistSummary historical).trend_direction = "decreasing") ∧
    ((computeHistSummary historical).absolute_change = 0 →
      (computeHistSummary historical).trend_direction = "stable") ∧
    (0 < (computeHistSummary historical).latest_year -
        (computeHistSummary historical).earliest_year →
      (computeHistSummary historical).avg_annual_change =
        (computeHistSummary historical).absolute_change /
          (((computeHistSummary historical).latest_year -
            (computeHistSummary historical).earliest_year : Int) : Rat)) ∧
    ((computeHistSummary historical).latest_year -
        (computeHistSummary historical).earliest_year ≤ 0 →
      (computeHistSummary historical).avg_annual_change = 0) := by
  refine ⟨by simp [computeHistSummary], ?_, ?_, ?_, ?_, ?_⟩
  · intro hpos
    simp only [computeHistSummary] at hpos ⊢
    rw [if_pos hpos]
  · intro hneg
    simp only [computeHistSummary] at hneg ⊢
    rw [if_neg (lt_asymm hneg), if_pos hneg]
  · intro hz
    simp only [computeHistSummary] at hz ⊢
    rw [if_neg (by rw [hz]; exact lt_irrefl 0),
      if_neg (by rw [hz]; exact lt_irrefl 0)]
  · intro hspan
    simp only [computeHistSummary] at hspan ⊢
    rw [if_pos hspan]
  · intro hspan
    simp only [computeHistSummary] at hspan ⊢
    rw [if_neg (not_lt.mpr hspan)]

/-- C5 witness: scenario A of the spec, series
[(2018, 100), (2019, 110), (2020, 121)]: the trend is increasing. -/
theorem C5_change_trend_avg_witness :
    (computeHistSummary
        [TaggedPoint.mk 2018 100 SeriesType.Historical,
         TaggedPoint.mk 2019 110 SeriesType.Historical,
         TaggedPoint.mk 2020 121 SeriesType.Historical]).trend_direction =
      "increasing" :=
  (C5_change_trend_avg
      [TaggedPoint.mk 2018 100 SeriesType.Historical,
       TaggedPoint.mk 2019 110 SeriesType.Historical,
       TaggedPoint.mk 2020 121 SeriesType.Historical]
    (by decide)).2.1 (by norm_num [computeHistSummary])

/-- Helper: two pairwise facts about a list combine pointwise. -/
theorem pairwise_conj {α : Type} {R S : α → α → Prop} :
    ∀ {l : List α}, l.Pairwise R → l.Pairwise S →
      l.Pairwise fun a b => R a b ∧ S a b
  | [], _, _ => List.Pairwise.nil
  | _ :: _, List.Pairwise.cons hR hRl, List.Pairwise.cons hS hSl =>
      List.Pairwise.cons (fun b hb => ⟨hR b hb, hS b hb⟩)
        (pairwise_conj hRl hSl)

/-- C6 counterexample: two rows of the same region share year 2020; the
extracted series keeps both points (no deduplication), so its years are
[2020, 2020] — not strictly ascending, contradicting the claim's strict
ascent at this input. -/
theorem C6_duplicate_years_not_strict :
    (time_series_data [Row.mk "EL30" 2020 1, Row.mk "EL30" 2020 2]
        "EL30").map TimePoint.year = [2020, 2020] ∧
    ¬ List.Pairwise (fun a b : TimePoint => a.year < b.year)
        (time_series_data [Row.mk "EL30" 2020 1, Row.mk "EL30" 2020 2]
          "EL30") := by
  decide

/-- C6 amended: extraction returns exactly the matching rows of the dataset
projected on the variable (a permutation of them, duplicates preserved),
sorted in non-decreasing year order; the years are strictly ascending
whenever the matching rows have pairwise-distinct years. -/
theorem C6_extraction_sorted (df : List Row) (region_code : String) :
    List.Perm (time_series_data df region_code)
      ((df.filter (fun r => r.nutsCode == region_code)).map
        (fun r => TimePoint.mk r.year r.value)) ∧
    List.Sorted yearLE (time_series_data df region_code) ∧
    (((df.filter (fun r => r.nutsCode == region_code)).map
        (fun r => TimePoint.mk r.year r.value)).Pairwise
          (fun a b => a.year ≠ b.year) →
      List.Sorted (fun a b : TimePoint => a.year < b.year)
        (time_series_data df region_code)) := by
  refine ⟨List.perm_insertionSort _ _, List.sorted_insertionSort _ _, ?_⟩
  intro hne
  have hperm :
      List.Perm (time_series_data df region_code)
        ((df.filter (fun r => r.nutsCode == region_code)).map
          (fun r => TimePoint.mk r.year r.value)) :=
    List.perm_insertionSort _ _
  have hne' :
      (time_series_data df region_code).Pairwise
        (fun a b => a.year ≠ b.year) :=
    (hperm.pairwise_iff (fun h => Ne.symm h)).mpr hne
  have hsort : List.Sorted yearLE (time_series_data df region_code) :=
    List.sorted_insertionSort _ _
  exact (pairwise_conj hsort hne').imp (fun h => lt_of_le_of_ne h.1 h.2)

/-- C6 witness: a dataset with distinct years for the selected region (and a
row of another region interleaved) extracts to a strictly ascending
series. -/
theorem C6_extraction_sorted_witness :
    List.Sorted (fun a b : TimePoint => a.year < b.year)
      (time_series_data
        [Row.mk "EL30" 2021 5, Row.mk "FR10" 2020 7, Row.mk "EL30" 2019 3]
        "EL30") :=
  (C6_extraction_sorted
    [Row.mk "EL30" 2021 5, Row.mk "FR10" 2020 7, Row.mk "EL30" 2019 3]
    "EL30").2.2 (by decide)

/-- C8 counterexample: a run of `generate_arima_forecast` with horizon 2 on
a two-point series, the oracle forecasting the constant 18.  The forecast
has 2 points, the forecasted change is 8, yet the reported average expected
annual change is `8 / 8 = 1` (app.py line 133 divides by the literal 8),
not `8 / 2 = 4` as the claim's division by the horizon would give. -/
theorem C8_avg_divisor_counterexample :
    (generate_arima_forecast (fun _ n => some (List.replicate n 18))
        [TimePoint.mk 2020 10, TimePoint.mk 2021 10] 2).2 =
      [TaggedPoint.mk 2022 18 SeriesType.Forecast,
       TaggedPoint.mk 2023 18 SeriesType.Forecast] ∧
    (computeForecastNarrative
        [TaggedPoint.mk 2020 10 SeriesType.Historical,
         TaggedPoint.mk 2021 10 SeriesType.Historical]
        [TaggedPoint.mk 2022 18 SeriesType.Forecast,
         TaggedPoint.mk 2023 18 SeriesType.Forecast]).forecasted_change = 8 ∧
    (computeForecastNarrative
        [TaggedPoint.mk 2020 10 SeriesType.Historical,
         TaggedPoint.mk 2021 10 SeriesType.Historical]
        [TaggedPoint.mk 2022 18 SeriesType.Forecast,
         TaggedPoint.mk 2023 18 SeriesType.Forecast]).avg_expected_annual_change =
      1 ∧
    (1 : Rat) ≠ 8 / 2 := by
  refine ⟨by decide, ?_, ?_, by norm_num⟩ <;>
    norm_num [computeForecastNarrative]

/-- C8 amended: for a historical series with at least 2 points and a
non-empty forecast series, the forecasted change is the last forecast value
minus the last historical value, the forecasted percent uses the zero-guard
relative to the last historical value, and the reported average expected
annual change is the forecasted change divided by the constant 8 — the
program's fixed forecast horizon — rather than by a variable horizon. -/
theorem C8_forecast_narrative (historical fore : List TaggedPoint)
    (_hlen : 2 ≤ historical.length) (_hfore : fore ≠ []) :
    (computeForecastNarrative historical fore).forecasted_change =
      (computeForecastNarrative historical fore).last_forecast_value -
        (historical.getLast?.getD default).value ∧
    ((historical.getLast?.getD default).value = 0 →
      (computeForecastNarrative historical fore).forecasted_percent = 0) ∧
    ((historical.getLast?.getD default).value ≠ 0 →
      (computeForecastNarrative historical fore).forecasted_percent =
        (computeForecastNarrative historical fore).forecasted_change /
          |(historical.getLast?.getD default).value| * 100) ∧
    (computeForecastNarrative historical fore).avg_expected_annual_change =
      (computeForecastNarrative historical fore).forecasted_change / 8 := by
  refine ⟨by simp [computeForecastNarrative], ?_, ?_,
    by simp [computeForecastNarrative]⟩
  · intro h0
    simp [computeForecastNarrative, h0]
  · intro h0
    simp [computeForecastNarrative, h0]

/-- C8 amended witness: concrete two-point history with last value 10 and a
one-point forecast with value 18: forecasted change 8, average expected
annual change 1. -/
theorem C8_forecast_narrative_witness :
    (computeForecastNarrative
        [TaggedPoint.mk 2020 4 SeriesType.Historical,
         TaggedPoint.mk 2021 10 SeriesType.Historical]
        [TaggedPoint.mk 2022 18 SeriesType.Forecast]).forecasted_percent =
      (computeForecastNarrative
        [TaggedPoint.mk 2020 4 SeriesType.Historical,
         TaggedPoint.mk 2021 10 SeriesType.Historical]
        [TaggedPoint.mk 2022 18 SeriesType.Forecast]).forecasted_change /
          |([TaggedPoint.mk 2020 4 SeriesType.Historical,
             TaggedPoint.mk 2021 10 SeriesType.Historical].getLast?.getD
              default).value| * 100 :=
  (C8_forecast_narrative
      [TaggedPoint.mk 2020 4 SeriesType.Historical,
       TaggedPoint.mk 2021 10 SeriesType.Historical]
      [TaggedPoint.mk 2022 18 SeriesType.Forecast]
      (by decide) (by decide)).2.2.1 (by norm_num)

/-- C9: the pipeline is deterministic: identical dataset and region code
give identical pipeline output (the ARIMA library call is modelled as a
function of the data and step count, as its fitting is deterministic for
fixed data and fixed order (2,1,2)), and the trend summary is a pure
function of its input series. -/
theorem C9_determinism (fit : FitOracle) (dfA dfB : List Row)
    (codeA codeB : String) (hdf : dfA = dfB) (hcode : codeA = codeB) :
    processRegion fit dfA codeA = processRegion fit dfB codeB ∧
    ∀ sA sB : List TaggedPoint, sA = sB →
      computeHistSummary sA = computeHistSummary sB := by
  subst hdf
  subst hcode
  exact ⟨rfl, fun _ _ h => by rw [h]⟩

/-- C9 witness: two runs on the same concrete dataset and region agree. -/
theorem C9_determinism_witness :
    processRegion (fun _ _ => none) [Row.mk "EL30" 2020 1] "EL30" =
      processRegion (fun _ _ => none) [Row.mk "EL30" 2020 1] "EL30" :=
  (C9_determinism (fun _ _ => none) [Row.mk "EL30" 2020 1]
    [Row.mk "EL30" 2020 1] "EL30" "EL30" rfl rfl).1

/-- C10: the combined series is the historical series (years, values, order
unchanged, tagged Historical) followed by the forecast series; filtering the
combined series by the origin tag recovers exactly the two inputs, and when
the forecast is empty the combined series is exactly the tagged historical
series. -/
theorem C10_combined_partition (fit : FitOracle) (ts : List TimePoint)
    (steps : Nat) :
    historicalOf (combined_data ts (generate_arima_forecast fit ts steps).2) =
      ts.map tagHistorical ∧
    forecastOf (combined_data ts (generate_arima_forecast fit ts steps).2) =
      (generate_arima_forecast fit ts steps).2 ∧
    (combined_data ts (generate_arima_forecast fit ts steps).2).map
        (fun p => (p.year, p.value)) =
      ts.map (fun p => (p.year, p.value)) ++
        (generate_arima_forecast fit ts steps).2.map
          (fun p => (p.year, p.value)) ∧
    ((generate_arima_forecast fit ts steps).2 = [] →
      combined_data ts (generate_arima_forecast fit ts steps).2 =
        ts.map tagHistorical) := by
  have hfore := generate_ptype_forecast fit ts steps
  refine ⟨?_, ?_, ?_, ?_⟩
  · rw [historicalOf, combined_data, List.filter_append]
    have h1 : (ts.map tagHistorical).filter
        (fun p => p.ptype == SeriesType.Historical) = ts.map tagHistorical :=
      List.filter_eq_self.mpr (fun p hp => by
        obtain ⟨q, _, rfl⟩ := List.mem_map.mp hp
        rfl)
    have h2 : ((generate_arima_forecast fit ts steps).2).filter
        (fun p => p.ptype == SeriesType.Historical) = [] :=
      List.filter_eq_nil_iff.mpr (fun p hp => by
        rw [hfore p hp]
        decide)
    rw [h1, h2, List.append_nil]
  · rw [forecastOf, combined_data, List.filter_append]
    have h1 : (ts.map tagHistorical).filter
        (fun p => p.ptype == SeriesType.Forecast) = [] :=
      List.filter_eq_nil_iff.mpr (fun p hp => by
        obtain ⟨q, _, rfl⟩ := List.mem_map.mp hp
        exact (by decide : ¬ (SeriesType.Historical == SeriesType.Forecast) = true))
    have h2 : ((generate_arima_forecast fit ts steps).2).filter
        (fun p => p.ptype == SeriesType.Forecast) =
        (generate_arima_forecast fit ts steps).2 :=
      List.filter_eq_self.mpr (fun p hp => by
        rw [hfore p hp]
        decide)
    rw [h1, h2, List.nil_append]
  · rw [combined_data, List.map_append, List.map_map]
    simp [tagHistorical, Function.comp]
  · intro hempty
    rw [combined_data, hempty, List.append_nil]

/-- C10 witness: with a single-point series the forecast is empty and the
combined series is exactly the tagged historical series. -/
theorem C10_combined_partition_witness :
    combined_data [TimePoint.mk 2020 1]
        (generate_arima_forecast (fun _ _ => none) [TimePoint.mk 2020 1] 8).2 =
      [TimePoint.mk 2020 1].map tagHistorical :=
  (C10_combined_partition (fun _ _ => none) [TimePoint.mk 2020 1] 8).2.2.2 rfl

end SavViewer
